import Mathlib

/-!
Verification of the invoicing core of `django-invoicing` (`invoicing/models.py`)
against its natural-language specification.

The Python code is shallowly embedded: decimal arithmetic is modelled by exact
rationals, Python's `round(x, 2)` (round half away from zero to two decimal
places) by `pyRound2`, nullable fields by `Option`, and the fatal
`ImproperlyConfigured` exception by `Except.error`.
-/

/-- Rounding of a rational to the nearest integer, halves away from zero:
the semantics of Python 2's built-in `round` and of SQL `ROUND`. -/
def pyRoundInt (x : ℚ) : ℤ :=
  if 0 ≤ x then ⌊x + 1/2⌋ else -⌊-x + 1/2⌋

/-- Python's `round(x, 2)`: round to two decimal places, halves away from zero. -/
def pyRound2 (x : ℚ) : ℚ :=
  (pyRoundInt (x * 100) : ℚ) / 100

theorem pyRoundInt_intCast (n : ℤ) : pyRoundInt (n : ℚ) = n := by
  unfold pyRoundInt
  have h2 : ⌊(1/2 : ℚ)⌋ = 0 := by
    rw [Int.floor_eq_zero_iff]
    constructor <;> norm_num
  split
  · rw [add_comm, Int.floor_add_int, h2, zero_add]
  · rw [show -(n : ℚ) = ((-n : ℤ) : ℚ) by push_cast; ring, add_comm,
      Int.floor_add_int, h2, zero_add, neg_neg]

theorem pyRound2_intCast_div (n : ℤ) : pyRound2 ((n : ℚ) / 100) = (n : ℚ) / 100 := by
  unfold pyRound2
  rw [div_mul_cancel₀ _ (by norm_num : (100 : ℚ) ≠ 0), pyRoundInt_intCast]

theorem pyRound2_shape (x : ℚ) : ∃ n : ℤ, pyRound2 x = (n : ℚ) / 100 :=
  ⟨pyRoundInt (x * 100), rfl⟩

/-- A sum of two already-rounded two-decimal values is a fixed point of the
final two-decimal rounding. -/
theorem pyRound2_add_pyRound2 (x y : ℚ) :
    pyRound2 (pyRound2 x + pyRound2 y) = pyRound2 x + pyRound2 y := by
  obtain ⟨m, hm⟩ := pyRound2_shape x
  obtain ⟨n, hn⟩ := pyRound2_shape y
  rw [hm, hn, div_add_div_same, ← Int.cast_add, pyRound2_intCast_div]

theorem pyRound2_eval (x : ℚ) (n : ℤ) (h1 : 0 ≤ x) (h2 : ⌊x * 100 + 1/2⌋ = n) :
    pyRound2 x = (n : ℚ) / 100 := by
  rw [pyRound2, pyRoundInt, if_pos (mul_nonneg h1 (by norm_num)), h2]

theorem pyRound2_zero : pyRound2 0 = 0 := by
  rw [pyRound2_eval 0 0 le_rfl (by norm_num)]
  norm_num

/-- Line item of an invoice (`Item` model): quantity, unit price, discount
percentage, nullable tax-rate percentage, and the nullable primary key that
records whether the row has been persisted. -/
structure Item where
  quantity : ℚ
  unit_price : ℚ
  discount : ℚ
  tax_rate : Option ℚ
  pk : Option Nat
deriving DecidableEq, Repr

/-- `Item.subtotal`: round the raw product `unit_price * quantity` to two
decimals, then apply the discount and round again (source lines 471-474). -/
def Item.subtotal (it : Item) : ℚ :=
  pyRound2 (pyRound2 (it.unit_price * it.quantity) * ((100 - it.discount) / 100))

/-- `Item.vat`: `round(subtotal * tax_rate / 100, 2)` when the tax rate is
set and truthy, else `round(0, 2)` (source lines 476-478; a `None` or zero
`tax_rate` is falsy in Python). -/
def Item.vat (it : Item) : ℚ :=
  pyRound2 (if it.tax_rate.getD 0 ≠ 0 then it.subtotal * it.tax_rate.getD 0 / 100 else 0)

/-- `Item.total`: `round(subtotal + vat, 2)` (source lines 485-487). -/
def Item.total (it : Item) : ℚ :=
  pyRound2 (it.subtotal + it.vat)

/-- C2: for every item, `subtotal` first rounds the raw product
`unit_price * quantity` to two decimals and only then applies the discount
and rounds again; in particular quantity 1, unit price 99.99, discount 10
yields 89.99. -/
theorem item_subtotal_round_then_discount (it : Item) :
    it.subtotal = pyRound2 (pyRound2 (it.unit_price * it.quantity) * (100 - it.discount) / 100)
    ∧ Item.subtotal ⟨1, 99.99, 10, some 0, none⟩ = 89.99 := by
  constructor
  · show pyRound2 _ = pyRound2 _
    congr 1
    ring
  · show pyRound2 (pyRound2 ((99.99 : ℚ) * 1) * ((100 - 10) / 100)) = 89.99
    rw [pyRound2_eval ((99.99 : ℚ) * 1) 9999 (by norm_num) (by norm_num)]
    rw [pyRound2_eval _ 8999 (by norm_num) (by norm_num)]
    norm_num

/-- C8: for every item, `total` equals `subtotal + vat` exactly: both summands
are already two-decimal values, so the final rounding is the identity. -/
theorem item_total_eq_subtotal_add_vat (it : Item) :
    it.total = it.subtotal + it.vat :=
  pyRound2_add_pyRound2 _ _

/-- Calendar date, the relevant projections of Python's `datetime.date`. -/
structure Date where
  year : Nat
  month : Nat
  day : Nat
deriving DecidableEq, Repr

/-- The fields of a stored invoice that number allocation reads: its `type`,
its `date_issue` and its already-assigned sequence `number`. -/
structure InvoiceRow where
  type : String
  date_issue : Date
  number : Int
deriving DecidableEq, Repr

/-- Python's `x or 0` applied to the result of `aggregate(Max('number'))`:
`None` and `0` are falsy and give `0`, any other integer is returned as is. -/
def pythonOrZero (x : Option Int) : Int :=
  match x with
  | none => 0
  | some m => if m = 0 then 0 else m

/-- `Invoice._get_next_number` (source lines 252-284): filter the stored
invoices by the window derived from the configured counter period and the
new invoice's `date_tax_point`, take the maximum `number` (`or 0`), add one.
An unrecognized period raises `ImproperlyConfigured`. -/
def getNextNumber (period : String) (typ : String) (date_tax_point : Date)
    (db : List InvoiceRow) : Except String Int :=
  let important_date := date_tax_point
  let relative_invoices : Option (List InvoiceRow) :=
    if period = "DAILY" then
      some (db.filter fun r => r.date_issue = important_date ∧ r.type = typ)
    else if period = "YEARLY" then
      some (db.filter fun r => r.date_issue.year = important_date.year ∧ r.type = typ)
    else if period = "MONTHLY" then
      some (db.filter fun r =>
        r.date_issue.year = important_date.year ∧
        r.date_issue.month = important_date.month ∧ r.type = typ)
    else
      none
  match relative_invoices with
  | none => Except.error
      "INVOICING_COUNTER_PERIOD can be set only to these values: DAILY, MONTHLY, YEARLY."
  | some rel =>
    let last_number := pythonOrZero (rel.map InvoiceRow.number).max?
    Except.ok (last_number + 1)

/-- Modelled from the spec: the scope filter as the specification words it —
same `type`, and a date window from the reset period (DAILY: exact
`date_issue` match, MONTHLY: same year and month, YEARLY: same year). -/
def specScopeMatch (period : String) (typ : String) (tp : Date) (r : InvoiceRow) : Bool :=
  decide (r.type = typ) &&
    (if period = "DAILY" then decide (r.date_issue = tp)
     else if period = "MONTHLY" then
       decide (r.date_issue.year = tp.year ∧ r.date_issue.month = tp.month)
     else decide (r.date_issue.year = tp.year))

/-- Modelled from the spec: one plus the maximum existing number among
invoices of the same type inside the scope window, taken as 0 when no such
invoice exists. -/
def specNextNumber (period : String) (typ : String) (tp : Date) (db : List InvoiceRow) : Int :=
  1 + ((db.filter (specScopeMatch period typ tp)).map InvoiceRow.number).max?.getD 0

theorem pythonOrZero_eq_getD (x : Option Int) : pythonOrZero x = x.getD 0 := by
  cases x with
  | none => rfl
  | some m =>
    by_cases h : m = 0 <;> simp [pythonOrZero, h]

/-- C1: for the three recognized reset periods, `_get_next_number` allocates
one plus the maximum existing number of the same type inside the scope window
derived from the tax-point date (0 when the scope is empty). -/
theorem next_number_one_plus_scope_max (period typ : String) (tp : Date) (db : List InvoiceRow)
    (h : period = "DAILY" ∨ period = "MONTHLY" ∨ period = "YEARLY") :
    getNextNumber period typ tp db = Except.ok (specNextNumber period typ tp db) := by
  rcases h with rfl | rfl | rfl
  · have hf : (db.filter fun r => decide (r.date_issue = tp ∧ r.type = typ))
        = db.filter (specScopeMatch "DAILY" typ tp) :=
      List.filter_congr fun r _ => by
        by_cases h1 : r.date_issue = tp <;> by_cases h2 : r.type = typ <;>
          simp [specScopeMatch, h1, h2]
    simp only [getNextNumber, String.reduceEq, reduceIte, hf, pythonOrZero_eq_getD,
      specNextNumber]
    rw [Int.add_comm]
  · have hf : (db.filter fun r =>
        decide (r.date_issue.year = tp.year ∧ r.date_issue.month = tp.month ∧ r.type = typ))
        = db.filter (specScopeMatch "MONTHLY" typ tp) :=
      List.filter_congr fun r _ => by
        by_cases h1 : r.date_issue.year = tp.year <;>
          by_cases h2 : r.date_issue.month = tp.month <;> by_cases h3 : r.type = typ <;>
          simp [specScopeMatch, h1, h2, h3]
    simp only [getNextNumber, String.reduceEq, reduceIte, hf, pythonOrZero_eq_getD,
      specNextNumber]
    rw [Int.add_comm]
  · have hf : (db.filter fun r => decide (r.date_issue.year = tp.year ∧ r.type = typ))
        = db.filter (specScopeMatch "YEARLY" typ tp) :=
      List.filter_congr fun r _ => by
        by_cases h1 : r.date_issue.year = tp.year <;> by_cases h2 : r.type = typ <;>
          simp [specScopeMatch, h1, h2]
    simp only [getNextNumber, String.reduceEq, reduceIte, hf, pythonOrZero_eq_getD,
      specNextNumber]
    rw [Int.add_comm]

def scenarioCDb : List InvoiceRow :=
  [⟨"INVOICE", ⟨2024, 1, 10⟩, 3⟩, ⟨"INVOICE", ⟨2024, 6, 1⟩, 7⟩,
   ⟨"INVOICE", ⟨2023, 6, 1⟩, 12⟩, ⟨"PROFORMA", ⟨2024, 3, 2⟩, 9⟩]

/-- Scenario C: with YEARLY reset and existing maximum 7 in scope (type
INVOICE, year 2024), the allocated number is 8. -/
theorem next_number_one_plus_scope_max_witness :
    getNextNumber "YEARLY" "INVOICE" ⟨2024, 7, 1⟩ scenarioCDb = Except.ok 8 := by
  have he : specNextNumber "YEARLY" "INVOICE" ⟨2024, 7, 1⟩ scenarioCDb = 8 := by decide
  rw [next_number_one_plus_scope_max "YEARLY" "INVOICE" ⟨2024, 7, 1⟩ scenarioCDb
    (Or.inr (Or.inr rfl)), he]

/-- C6: an unrecognized counter period is a fatal configuration error, and the
three recognized periods never fail for this reason. -/
theorem unrecognized_period_fatal (period typ : String) (tp : Date) (db : List InvoiceRow) :
    (period ≠ "DAILY" → period ≠ "MONTHLY" → period ≠ "YEARLY" →
      getNextNumber period typ tp db = Except.error
        "INVOICING_COUNTER_PERIOD can be set only to these values: DAILY, MONTHLY, YEARLY.")
    ∧ (period = "DAILY" ∨ period = "MONTHLY" ∨ period = "YEARLY" →
      ∃ n : Int, getNextNumber period typ tp db = Except.ok n) := by
  constructor
  · intro h1 h2 h3
    simp only [getNextNumber]
    rw [if_neg h1, if_neg h3, if_neg h2]
  · rintro (rfl | rfl | rfl) <;> exact ⟨_, rfl⟩

theorem unrecognized_period_fatal_witness :
    getNextNumber "WEEKLY" "INVOICE" ⟨2024, 5, 17⟩ [] = Except.error
      "INVOICING_COUNTER_PERIOD can be set only to these values: DAILY, MONTHLY, YEARLY."
    ∧ ∃ n : Int, getNextNumber "DAILY" "INVOICE" ⟨2024, 5, 17⟩ [] = Except.ok n :=
  ⟨(unrecognized_period_fatal "WEEKLY" "INVOICE" ⟨2024, 5, 17⟩ []).1
      (by decide) (by decide) (by decide),
   (unrecognized_period_fatal "DAILY" "INVOICE" ⟨2024, 5, 17⟩ []).2 (Or.inl rfl)⟩

/-- The number-assignment step of `Invoice.save` (source lines 240-242): the
`number` field is allocated only when it is empty (`None`); an already-set
integer, zero included, is never in Django's `EMPTY_VALUES`. -/
def Invoice.allocate_number (period typ : String) (tp : Date) (db : List InvoiceRow)
    (number : Option Int) : Except String (Option Int) :=
  match number with
  | some n => Except.ok (some n)
  | none => (getNextNumber period typ tp db).map some

/-- C7: number allocation is an idempotent no-op on an invoice whose `number`
is already set. -/
theorem allocate_number_skips_when_set (period typ : String) (tp : Date)
    (db : List InvoiceRow) (number : Option Int) (n : Int) (h : number = some n) :
    Invoice.allocate_number period typ tp db number = Except.ok (some n) := by
  subst h
  rfl

theorem allocate_number_skips_when_set_witness :
    Invoice.allocate_number "YEARLY" "INVOICE" ⟨2024, 5, 17⟩ [] (some 5) =
      Except.ok (some 5) :=
  allocate_number_skips_when_set "YEARLY" "INVOICE" ⟨2024, 5, 17⟩ [] (some 5) 5 rfl

/-- Raw base contribution of one item in the `vat_summary` SQL:
`quantity*unit_price*(100-discount)/100`, unrounded. -/
def Item.raw_base (it : Item) : ℚ :=
  it.quantity * it.unit_price * ((100 - it.discount) / 100)

/-- Raw VAT contribution of one item in the `vat_summary` SQL at rate `r`:
`quantity*unit_price*(r/100)`, discount-free and unrounded. -/
def Item.raw_vat (it : Item) (r : ℚ) : ℚ :=
  it.quantity * it.unit_price * (r / 100)

/-- One row of the `vat_summary` result set: the grouping rate, the unrounded
base sum, and the aggregated-then-rounded vat sum (`NULL` for the `NULL`-rate
group, by SQL `SUM` semantics over all-`NULL` input). -/
structure VatGroup where
  rate : Option ℚ
  base : ℚ
  vat : Option ℚ
deriving DecidableEq, Repr

/-- `Invoice.vat_summary` (source lines 389-403): `GROUP BY tax_rate` over the
invoice's items; per group the unrounded base sum and the rounded vat sum. -/
def Invoice.vat_summary (items : List Item) : List VatGroup :=
  (items.map Item.tax_rate).dedup.map fun r =>
    { rate := r
      base := ((items.filter fun it => it.tax_rate = r).map Item.raw_base).sum
      vat := r.map fun rv =>
        pyRound2 (((items.filter fun it => it.tax_rate = r).map fun it => it.raw_vat rv).sum) }

/-- `Invoice.vat` (source lines 412-420): the undefined sentinel when the
summary is a single group whose vat is `NULL`, otherwise the sum of the
groups' vat values with `NULL` as 0. -/
def Invoice.vat (items : List Item) : Option ℚ :=
  match Invoice.vat_summary items with
  | [g] =>
    if g.vat = none then none
    else some (([g].map fun x => x.vat.getD 0).sum)
  | s => some ((s.map fun g => g.vat.getD 0).sum)

theorem sum_map_filter_add_not {α M : Type} [AddCommMonoid M] (p : α → Bool) (f : α → M)
    (l : List α) :
    ((l.filter p).map f).sum + ((l.filter fun a => !p a).map f).sum = (l.map f).sum := by
  induction l with
  | nil => simp
  | cons a l ih =>
    cases h : p a <;>
      simp [List.filter_cons, h, ← ih, add_assoc, add_left_comm]

theorem sum_over_groups {α β M : Type} [DecidableEq β] [AddCommMonoid M]
    (key : α → β) (f : α → M) :
    ∀ (ks : List β) (l : List α), ks.Nodup → (∀ a ∈ l, key a ∈ ks) →
      (ks.map fun r => ((l.filter fun a => key a = r).map f).sum).sum = (l.map f).sum := by
  intro ks
  induction ks with
  | nil =>
    intro l _ hcov
    cases l with
    | nil => simp
    | cons a t => exact absurd (hcov a (List.mem_cons_self a t)) (List.not_mem_nil _)
  | cons r ks ih =>
    intro l hnd hcov
    have hr : r ∉ ks := (List.nodup_cons.mp hnd).1
    have hnd2 : ks.Nodup := (List.nodup_cons.mp hnd).2
    have hcov2 : ∀ a ∈ l.filter fun a => !(decide (key a = r)), key a ∈ ks := by
      intro a ha
      have hmem : a ∈ l := List.mem_of_mem_filter ha
      have hne : ¬ key a = r := by simpa using List.of_mem_filter ha
      rcases List.mem_cons.mp (hcov a hmem) with h | h
      · exact absurd h hne
      · exact h
    have htail : ∀ r' ∈ ks,
        ((l.filter fun a => !(decide (key a = r))).filter fun a => key a = r')
          = l.filter fun a => key a = r' := by
      intro r' hr2
      have hne : r' ≠ r := fun e => hr (e ▸ hr2)
      rw [List.filter_filter]
      apply List.filter_congr
      intro a _
      by_cases h : key a = r'
      · simp [h, hne]
      · simp [h]
    have hmap : (ks.map fun r' => ((l.filter fun a => key a = r').map f).sum)
        = ks.map fun r' =>
            (((l.filter fun a => !(decide (key a = r))).filter fun a => key a = r').map f).sum :=
      List.map_congr_left fun r' hr2 => by rw [htail r' hr2]
    simp only [List.map_cons, List.sum_cons]
    rw [hmap, ih _ hnd2 hcov2, ← sum_map_filter_add_not (fun a => decide (key a = r)) f l]

theorem sum_map_one {α : Type} (l : List α) : (l.map fun _ => (1 : ℕ)).sum = l.length := by
  induction l with
  | nil => rfl
  | cons a t ih => simp [ih, Nat.add_comm]

/-- C3: `vat_summary` partitions the items into one group per distinct
tax rate; each group's base is the unrounded sum of the raw base
contributions of its items, and its vat is the group's raw discount-free
contributions summed first and rounded to two decimals only after
aggregation. -/
theorem vat_summary_partition (items : List Item) :
    (((Invoice.vat_summary items).map fun g =>
        (items.filter fun it => it.tax_rate = g.rate).length).sum = items.length)
    ∧ (((Invoice.vat_summary items).map VatGroup.base).sum = (items.map Item.raw_base).sum)
    ∧ ∀ g ∈ Invoice.vat_summary items,
        g.base = ((items.filter fun it => it.tax_rate = g.rate).map Item.raw_base).sum
        ∧ g.vat = g.rate.map fun rv =>
            pyRound2 (((items.filter fun it => it.tax_rate = g.rate).map
              fun it => it.raw_vat rv).sum) := by
  have hnd : ((items.map Item.tax_rate).dedup).Nodup := List.nodup_dedup _
  have hcov : ∀ it ∈ items, it.tax_rate ∈ (items.map Item.tax_rate).dedup :=
    fun it h => List.mem_dedup.mpr (List.mem_map_of_mem _ h)
  refine ⟨?_, ?_, ?_⟩
  · rw [Invoice.vat_summary, List.map_map]
    have h1 : (((items.map Item.tax_rate).dedup).map fun r =>
        (items.filter fun it => it.tax_rate = r).length)
        = ((items.map Item.tax_rate).dedup).map fun r =>
            ((items.filter fun it => it.tax_rate = r).map fun _ => (1 : ℕ)).sum :=
      List.map_congr_left fun r _ => (sum_map_one _).symm
    show (((items.map Item.tax_rate).dedup).map fun r =>
        (items.filter fun it => it.tax_rate = r).length).sum = items.length
    rw [h1, sum_over_groups Item.tax_rate (fun _ => (1 : ℕ)) _ items hnd hcov, sum_map_one]
  · rw [Invoice.vat_summary, List.map_map]
    exact sum_over_groups Item.tax_rate Item.raw_base _ items hnd hcov
  · intro g hg
    rw [Invoice.vat_summary] at hg
    obtain ⟨r, hr, rfl⟩ := List.mem_map.mp hg
    exact ⟨rfl, rfl⟩

def demoItems : List Item :=
  [⟨3, 10, 0, some 20, some 1⟩, ⟨1, 99.99, 10, some 0, some 2⟩,
   ⟨2, 5, 0, some 20, some 3⟩, ⟨1, 7, 0, none, some 4⟩]

theorem vat_summary_partition_witness :
    ((Invoice.vat_summary demoItems).map fun g =>
      (demoItems.filter fun it => it.tax_rate = g.rate).length).sum = demoItems.length :=
  (vat_summary_partition demoItems).1

theorem dedup_replicate {β : Type} [DecidableEq β] (b : β) :
    ∀ n : Nat, 0 < n → (List.replicate n b).dedup = [b] := by
  intro n
  induction n with
  | zero => intro h; exact absurd h (by simp)
  | succ n ih =>
    intro _
    rw [List.replicate_succ]
    rcases Nat.eq_zero_or_pos n with h0 | hpos
    · subst h0
      simp
    · have hmem : b ∈ List.replicate n b := List.mem_replicate.mpr ⟨Nat.pos_iff_ne_zero.mp hpos, rfl⟩
      rw [List.dedup_cons_of_mem hmem, ih hpos]

theorem dedup_rates_eq_singleton_none_iff (items : List Item) :
    (items.map Item.tax_rate).dedup = [none] ↔
      items ≠ [] ∧ ∀ it ∈ items, it.tax_rate = none := by
  constructor
  · intro h
    constructor
    · intro hnil
      rw [hnil] at h
      simp at h
    · intro it hit
      have hm : it.tax_rate ∈ (items.map Item.tax_rate).dedup :=
        List.mem_dedup.mpr (List.mem_map_of_mem _ hit)
      rw [h] at hm
      simpa using hm
  · rintro ⟨hne, hall⟩
    have hmap : items.map Item.tax_rate = List.replicate items.length (none : Option ℚ) := by
      apply List.eq_replicate_iff.mpr
      refine ⟨by simp, ?_⟩
      intro b hb
      obtain ⟨it, hit, rfl⟩ := List.mem_map.mp hb
      exact hall it hit
    have hlen : 0 < items.length := by
      cases items with
      | nil => exact absurd rfl hne
      | cons a t => simp
    rw [hmap, dedup_replicate _ _ hlen]

/-- The undefined sentinel of `Invoice.vat` occurs exactly when the invoice
has at least one item and no item carries a tax rate. -/
theorem vat_eq_none_iff (items : List Item) :
    Invoice.vat items = none ↔ items ≠ [] ∧ ∀ it ∈ items, it.tax_rate = none := by
  rw [← dedup_rates_eq_singleton_none_iff]
  cases hd : (items.map Item.tax_rate).dedup with
  | nil => simp [Invoice.vat, Invoice.vat_summary, hd]
  | cons r t =>
    cases t with
    | nil =>
      cases r with
      | none => simp [Invoice.vat, Invoice.vat_summary, hd]
      | some rv => simp [Invoice.vat, Invoice.vat_summary, hd]
    | cons r2 t2 => simp [Invoice.vat, Invoice.vat_summary, hd]

/-- C4 as stated fails on the empty item collection: every item of `[]`
vacuously has no tax rate, yet `vat` returns 0, not the undefined sentinel. -/
theorem vat_undefined_iff_fails_on_empty :
    ¬ (Invoice.vat ([] : List Item) = none ↔
        ∀ it ∈ ([] : List Item), it.tax_rate = none) := by
  intro h
  have h2 : Invoice.vat ([] : List Item) = some 0 := by
    simp [Invoice.vat, Invoice.vat_summary]
  rw [h2] at h
  simp at h

/-- C4 amended: `vat` returns the undefined sentinel iff the invoice has at
least one item and every item has no tax rate set; otherwise (in particular
for the empty item collection) it is the sum of the `vat` fields across the
`vat_summary` groups with absent values treated as 0. -/
theorem vat_undefined_iff_nonempty_and_all_unset (items : List Item) :
    (Invoice.vat items = none ↔ items ≠ [] ∧ ∀ it ∈ items, it.tax_rate = none)
    ∧ (Invoice.vat items = none ∨
        Invoice.vat items =
          some (((Invoice.vat_summary items).map fun g => g.vat.getD 0).sum)) := by
  refine ⟨vat_eq_none_iff items, ?_⟩
  unfold Invoice.vat
  cases hs : Invoice.vat_summary items with
  | nil => right; simp
  | cons g t =>
    cases t with
    | nil =>
      by_cases hv : g.vat = none
      · left; simp [hv]
      · right; simp [hv]
    | cons g2 t2 => right; rfl

/-- The invoice fields the VAT-visibility rule reads: the two country codes
and the item collection. -/
structure Invoice where
  supplier_country : String
  customer_country : String
  items : List Item

/-- `Invoice.is_supplier_vat_id_visible` (source lines 376-387). The EU
membership test of `EUTaxationPolicy.is_in_EU` lives outside this module and
is passed in as the collaborator `isEU`; Python's `self.vat != 0` compares
the `None` sentinel as different from 0, and a falsy (empty) customer country
short-circuits the EU test to `False`. -/
def Invoice.is_supplier_vat_id_visible (isEU : String → Bool) (inv : Invoice) : Bool :=
  if Invoice.vat inv.items = none ∧ inv.supplier_country = inv.customer_country then
    false
  else if Invoice.vat inv.items ≠ some 0
      ∨ (inv.items.any fun it =>
          match it.tax_rate with
          | some r => decide (0 < r)
          | none => false) = true then
    true
  else
    (if inv.customer_country ≠ "" then isEU inv.customer_country else false)
      && decide (inv.supplier_country ≠ inv.customer_country)

/-- C5: the visibility rule case by case — undefined vat with equal countries
gives false; a non-zero vat or a positively-taxed item gives true; with vat
exactly zero and no positively-taxed item it is true exactly for an EU
customer in a country different from the supplier's. -/
theorem supplier_vat_id_visible_rule (isEU : String → Bool) (inv : Invoice) :
    (Invoice.vat inv.items = none → inv.supplier_country = inv.customer_country →
      Invoice.is_supplier_vat_id_visible isEU inv = false)
    ∧ ((∃ v, Invoice.vat inv.items = some v ∧ v ≠ 0) ∨
        (∃ it ∈ inv.items, ∃ r, it.tax_rate = some r ∧ 0 < r) →
      Invoice.is_supplier_vat_id_visible isEU inv = true)
    ∧ (Invoice.vat inv.items = some 0 →
        (¬ ∃ it ∈ inv.items, ∃ r, it.tax_rate = some r ∧ 0 < r) →
        inv.customer_country ≠ "" →
      (Invoice.is_supplier_vat_id_visible isEU inv = true ↔
        (isEU inv.customer_country = true ∧
          inv.supplier_country ≠ inv.customer_country))) := by
  refine ⟨?_, ?_, ?_⟩
  · intro h1 h2
    unfold Invoice.is_supplier_vat_id_visible
    rw [if_pos ⟨h1, h2⟩]
  · intro h
    have hfirst : ¬ (Invoice.vat inv.items = none ∧
        inv.supplier_country = inv.customer_country) := by
      rintro ⟨hnone, -⟩
      rcases h with ⟨v, hv, -⟩ | ⟨it, hit, r, hr, -⟩
      · rw [hnone] at hv
        exact Option.noConfusion hv
      · have hall := (vat_eq_none_iff inv.items).mp hnone
        rw [hall.2 it hit] at hr
        exact Option.noConfusion hr
    have hsecond : Invoice.vat inv.items ≠ some 0
        ∨ (inv.items.any fun it =>
            match it.tax_rate with
            | some r => decide (0 < r)
            | none => false) = true := by
      rcases h with ⟨v, hv, hvne⟩ | ⟨it, hit, r, hr, hrpos⟩
      · left
        rw [hv]
        intro he
        exact hvne (Option.some.inj he)
      · right
        refine List.any_eq_true.mpr ⟨it, hit, ?_⟩
        rw [hr]
        exact decide_eq_true hrpos
    unfold Invoice.is_supplier_vat_id_visible
    rw [if_neg hfirst, if_pos hsecond]
  · intro h0 hno heu
    have hfirst : ¬ (Invoice.vat inv.items = none ∧
        inv.supplier_country = inv.customer_country) := by
      rintro ⟨hnone, -⟩
      rw [h0] at hnone
      exact Option.noConfusion hnone
    have hsecond : ¬ (Invoice.vat inv.items ≠ some 0
        ∨ (inv.items.any fun it =>
            match it.tax_rate with
            | some r => decide (0 < r)
            | none => false) = true) := by
      rintro (hne | hany)
      · exact hne h0
      · obtain ⟨it, hit, hfn⟩ := List.any_eq_true.mp hany
        cases htr : it.tax_rate with
        | none => rw [htr] at hfn; exact Bool.noConfusion hfn
        | some r =>
          rw [htr] at hfn
          exact hno ⟨it, hit, r, htr, of_decide_eq_true hfn⟩
    unfold Invoice.is_supplier_vat_id_visible
    rw [if_neg hfirst, if_neg hsecond, if_pos heu]
    simp [Bool.and_eq_true, decide_eq_true_iff]

def scenarioDEItems : List Item := [⟨1, 10, 0, some 0, some 1⟩]

def scenarioDInvoice : Invoice := ⟨"SK", "SK", scenarioDEItems⟩

def scenarioEInvoice : Invoice := ⟨"SK", "CZ", scenarioDEItems⟩

def demoEU : String → Bool := fun c => c == "SK" || c == "CZ" || c == "DE"

theorem scenarioDEItems_vat : Invoice.vat scenarioDEItems = some 0 := by
  have hs : Invoice.vat_summary scenarioDEItems
      = [⟨some 0, ((scenarioDEItems.filter fun it => it.tax_rate = some 0).map
            Item.raw_base).sum, some 0⟩] := by
    simp [Invoice.vat_summary, scenarioDEItems, Item.raw_vat, pyRound2_zero]
  simp [Invoice.vat, hs]

theorem scenarioDEItems_no_positive_rate :
    ¬ ∃ it ∈ scenarioDEItems, ∃ r, it.tax_rate = some r ∧ 0 < r := by
  rintro ⟨it, hit, r, hr, hpos⟩
  have : it = (⟨1, 10, 0, some 0, some 1⟩ : Item) := by simpa [scenarioDEItems] using hit
  subst this
  have : r = 0 := by
    have := Option.some.inj hr
    exact this.symm
  subst this
  exact lt_irrefl 0 hpos

/-- Scenario D (same country, all items at rate 0: hidden) and Scenario E
(EU customer in a different country, all items at rate 0: shown). -/
theorem supplier_vat_id_visible_rule_witness :
    Invoice.is_supplier_vat_id_visible demoEU scenarioDInvoice = false
    ∧ Invoice.is_supplier_vat_id_visible demoEU scenarioEInvoice = true := by
  constructor
  · have h := (supplier_vat_id_visible_rule demoEU scenarioDInvoice).2.2
      scenarioDEItems_vat scenarioDEItems_no_positive_rate (by decide)
    have hrhs : ¬ (demoEU scenarioDInvoice.customer_country = true ∧
        scenarioDInvoice.supplier_country ≠ scenarioDInvoice.customer_country) := by
      rintro ⟨-, hne⟩
      exact hne rfl
    cases hb : Invoice.is_supplier_vat_id_visible demoEU scenarioDInvoice with
    | false => rfl
    | true => exact absurd (h.mp hb) hrhs
  · exact ((supplier_vat_id_visible_rule demoEU scenarioEInvoice).2.2
      scenarioDEItems_vat scenarioDEItems_no_positive_rate (by decide)).mpr
      ⟨by decide, by decide⟩

/-- C10: when `vat` is the undefined sentinel and the two countries differ,
the `vat != 0` comparison sees `None != 0` as true in Python, so the
visibility check returns true even though no VAT information exists. -/
theorem undefined_vat_cross_country_visible (isEU : String → Bool) (inv : Invoice)
    (h1 : Invoice.vat inv.items = none)
    (h2 : inv.supplier_country ≠ inv.customer_country) :
    Invoice.is_supplier_vat_id_visible isEU inv = true := by
  unfold Invoice.is_supplier_vat_id_visible
  have hfirst : ¬ (Invoice.vat inv.items = none ∧
      inv.supplier_country = inv.customer_country) := fun hc => h2 hc.2
  have hne : Invoice.vat inv.items ≠ some 0 := by
    rw [h1]
    exact fun he => Option.noConfusion he
  rw [if_neg hfirst, if_pos (Or.inl hne)]

def crossInvoice : Invoice := ⟨"US", "JP", [⟨1, 10, 0, none, some 1⟩]⟩

theorem undefined_vat_cross_country_visible_witness :
    Invoice.is_supplier_vat_id_visible (fun _ => false) crossInvoice = true :=
  undefined_vat_cross_country_visible (fun _ => false) crossInvoice
    ((vat_eq_none_iff _).mpr ⟨by decide, by decide⟩) (by decide)

/-- `Item.save` (source lines 489-493): when the item is being created
(`pk is None`) and its `tax_rate` is empty, the rate is resolved from the
invoice's taxation policy (`self.invoice.get_tax_rate()`, the collaborator
value `resolved_rate` here); `super().save()` is modelled as assigning the
primary key `new_pk` on first insert and keeping it afterwards. -/
def Item.save (resolved_rate : ℚ) (new_pk : Nat) (it : Item) : Item :=
  let it2 :=
    if it.tax_rate = none ∧ it.pk = none then
      { it with tax_rate := some resolved_rate }
    else it
  { it2 with pk := some (it2.pk.getD new_pk) }

/-- C9: an absent tax rate is resolved from the invoice's policy exactly once,
at creation time; a tax rate that is set (explicitly or by that resolution)
is never changed by any later save, whatever rate the policy would then
resolve. -/
theorem tax_rate_resolved_once_at_creation (resolved_rate later_rate : ℚ)
    (pk1 pk2 : Nat) (it : Item) :
    (∀ r, it.tax_rate = some r → (Item.save resolved_rate pk1 it).tax_rate = some r)
    ∧ (it.tax_rate = none → it.pk = none →
        (Item.save resolved_rate pk1 it).tax_rate = some resolved_rate)
    ∧ (it.pk ≠ none → (Item.save resolved_rate pk1 it).tax_rate = it.tax_rate)
    ∧ (Item.save later_rate pk2 (Item.save resolved_rate pk1 it)).tax_rate
        = (Item.save resolved_rate pk1 it).tax_rate := by
  obtain ⟨q, u, d, tr, pk⟩ := it
  cases tr <;> cases pk <;> simp [Item.save]

theorem tax_rate_resolved_once_at_creation_witness :
    (Item.save 20 1 ⟨1, 10, 0, none, none⟩).tax_rate = some 20 :=
  (tax_rate_resolved_once_at_creation 20 19 1 2 ⟨1, 10, 0, none, none⟩).2.1 rfl rfl
